import Mathlib

/-!
Shallow embedding of the measurement logic of the
Streamlit-Website-Speed-Evaluator repository.

The repository has two source files, `base.py` and `multi-base.py`.  Both
define a function `get_website_speed(url, browser_name)` that launches a
Selenium-driven browser, navigates to the URL, reads the browser's
performance-timing records and returns a Python dict: either a dict with
the metric keys (and `"Resource Data"`), or a dict whose only key is
`"Error"`.  `multi-base.py` additionally defines
`collect_internal_links(base_url, max_links=10)` and a batch loop over
(page, browser) pairs.

The external world (Selenium driver calls, the Python `requests` fetch,
the browser's timing snapshots) is modelled as explicit inputs: each
fallible external call is an `Except String _` value, and a timing
snapshot is a record of `Option Int` fields mirroring the JavaScript
objects (a missing key is `none`; the Python code reads keys with
`.get(key, 0)`).  Timestamps and durations are modelled as `Int`: the
code only ever subtracts them, so the model is faithful for integral
inputs and exact subtraction.
-/

set_option autoImplicit false

namespace WebSpeed

/-- Python `s.split(sep)` for a single-character separator, on the
character list of a string: splitting the empty string gives `[[]]`, and
adjacent separators give empty groups, exactly as in Python. -/
def splitChars (c : Char) : List Char → List (List Char)
  | [] => [[]]
  | a :: rest =>
    match splitChars c rest with
    | [] => if a = c then [[], []] else [[a]]
    | g :: gs => if a = c then [] :: g :: gs else (a :: g) :: gs

/-- Python `s.split(sep)` for a single-character separator `c`. -/
def splitOnChar (c : Char) (s : String) : List String :=
  (splitChars c s.data).map (fun l => ⟨l⟩)

/-- Python `sep.join(parts)` for a single-character separator `c`. -/
def joinChar (c : Char) : List String → String
  | [] => ""
  | [s] => s
  | s :: rest => s ++ String.singleton c ++ joinChar c rest

/-- The character `/`. -/
def slash : Char := Char.ofNat 47

/-- The character `?`. -/
def qmark : Char := Char.ofNat 63

/-- The JavaScript object `window.performance.timing` as read by
`base.py` (Navigation Timing Level 1): each field read with
`timing_info.get(key, 0)` is an optional integer epoch-millisecond
timestamp. -/
structure NavTimingL1 where
  navigationStart : Option Int
  responseStart : Option Int
  domComplete : Option Int
  domainLookupStart : Option Int
  domainLookupEnd : Option Int
  connectStart : Option Int
  connectEnd : Option Int
deriving Repr, DecidableEq

/-- One element of `window.performance.getEntriesByType('resource')` as
read by both files: `name`, `initiatorType`, `duration`, `transferSize`,
each possibly absent. -/
structure ResourceEntry where
  name : Option String
  initiatorType : Option String
  duration : Option Int
  transferSize : Option Int
deriving Repr, DecidableEq

namespace BasePy

/-- One row of `result["Resource Data"]` built by `base.py`
(dict keys `"Name"`, `"Type"`, `"Duration (ms)"`, `"Size (KB)"`).
`sizeKb` is a rational because Python divides by 1024 with `/`. -/
structure BaseRow where
  name : String
  rtype : String
  durationMs : Int
  sizeKb : Rat
deriving Repr, DecidableEq

/-- The dict returned by `base.py`'s `get_website_speed`: either the
`"Error"` key alone, or the five metric keys plus `"Resource Data"`.
A `none` field models an absent dict key. -/
structure BaseResult where
  error : Option String
  ttfbMs : Option Int
  frontendMs : Option Int
  totalMs : Option Int
  dnsMs : Option Int
  tcpMs : Option Int
  resourceData : Option (List BaseRow)
deriving Repr, DecidableEq

/-- A dict holding only the `"Error"` key. -/
def errResult (msg : String) : BaseResult :=
  { error := some msg, ttfbMs := none, frontendMs := none, totalMs := none
  , dnsMs := none, tcpMs := none, resourceData := none }

/-- Outcomes of the external Selenium calls made inside the `try` block
of `base.py`'s `get_website_speed`, in program order: constructing the
driver, `driver.get(url)`, the `performance.timing` script, and the
resource-entries script.  `Except.error e` models the call raising an
exception whose `str` is `e`. -/
structure BaseEnv where
  launch : Except String Unit
  navigate : Except String Unit
  timing : Except String NavTimingL1
  resources : Except String (List ResourceEntry)

/-- `base.py` line 93: `resource.get('name', '').split('/')[-1].split('?')[0]`. -/
def basenameStripQuery (s : String) : String :=
  ((splitOnChar qmark ((splitOnChar slash s).getLastD s)).headD s)

/-- The resource-row comprehension of `base.py` (lines 92-97). -/
def mkBaseRow (r : ResourceEntry) : BaseRow :=
  { name := basenameStripQuery (r.name.getD "")
  , rtype := r.initiatorType.getD "unknown"
  , durationMs := r.duration.getD 0
  , sizeKb := (r.transferSize.getD 0 : Rat) / 1024 }

/-- The `try` block of `base.py`'s `get_website_speed` (lines 48-99).
Returns the block's outcome (`Except.error` models an exception escaping
the block, including the `raise ValueError` for an unsupported browser)
together with whether `driver` was assigned (true once the webdriver
constructor returned). -/
def baseTryBody (browser : String) (env : BaseEnv) :
    Except String BaseResult × Bool :=
  if browser = "Chrome" ∨ browser = "Firefox" ∨ browser = "Edge" then
    match env.launch with
    | .error e => (.error e, false)
    | .ok _ =>
      match env.navigate with
      | .error e => (.error e, true)
      | .ok _ =>
        match env.timing with
        | .error e => (.error e, true)
        | .ok t =>
          let ns := t.navigationStart.getD 0
          let rs := t.responseStart.getD 0
          let dc := t.domComplete.getD 0
          let dls := t.domainLookupStart.getD 0
          let dle := t.domainLookupEnd.getD 0
          let cs := t.connectStart.getD 0
          let ce := t.connectEnd.getD 0
          if dc = 0 then (.ok (errResult "Page did not finish loading."), true)
          else
            match env.resources with
            | .error e => (.error e, true)
            | .ok rl =>
              (.ok { error := none
                   , ttfbMs := some (rs - ns)
                   , frontendMs := some (dc - rs)
                   , totalMs := some (dc - ns)
                   , dnsMs := some (dle - dls)
                   , tcpMs := some (ce - cs)
                   , resourceData := some (rl.map mkBaseRow) }, true)
  else
    (.error "Unsupported browser selected.", false)

/-- The value returned by `get_website_speed` together with the session
bookkeeping used by the `finally` clause: whether a driver was launched
and whether `driver.quit()` was invoked. -/
structure MeasureOutput (ρ : Type) where
  result : ρ
  launched : Bool
  quitCalled : Bool
deriving Repr, DecidableEq

/-- `base.py` `get_website_speed(url, browser_name)` (lines 46-104):
run the `try` body; `except Exception as e` converts any exception into
an `"Error"` dict; `finally: if driver: driver.quit()`. -/
def get_website_speed (url : String) (browser : String) (env : BaseEnv) :
    MeasureOutput BaseResult :=
  let body := baseTryBody browser env
  let res := match body.1 with
    | .ok v => v
    | .error e => errResult ("An unexpected error occurred: " ++ e)
  { result := res, launched := body.2, quitCalled := body.2 }

end BasePy

namespace MultiBase

/-- `performance.getEntriesByType('navigation')[0]` as read by
`multi-base.py` (Navigation Timing Level 2): fields are read with
`nav_timing.get(key, 0)`. -/
structure NavTimingL2 where
  startTime : Option Int
  responseStart : Option Int
  domComplete : Option Int
  duration : Option Int
deriving Repr, DecidableEq

/-- One entry of `resource_data` built by `multi-base.py`
(dict keys `"Name"`, `"URL"`, `"Type"`, `"Duration (ms)"`). -/
structure MultiRow where
  name : String
  url : String
  rtype : String
  durationMs : Int
deriving Repr, DecidableEq

/-- The dict returned by `multi-base.py`'s `get_website_speed`: either
the `"Error"` key alone, or the three metric keys plus
`"Resource Data"`. -/
structure MultiResult where
  error : Option String
  backendMs : Option Int
  frontendMs : Option Int
  totalMs : Option Int
  resourceData : Option (List MultiRow)
deriving Repr, DecidableEq

/-- A dict holding only the `"Error"` key. -/
def errResult (msg : String) : MultiResult :=
  { error := some msg, backendMs := none, frontendMs := none
  , totalMs := none, resourceData := none }

/-- Outcomes of the external calls made inside `multi-base.py`'s
`get_website_speed`: the host platform string (`platform.system()`), the
driver constructor, `driver.get(url)`, the navigation-timing script
(`.ok none` models the script evaluating to a falsy value because the
navigation entry list is empty), and the resource-entries script. -/
structure MultiEnv where
  platformSystem : String
  launch : Except String Unit
  navigate : Except String Unit
  navTiming : Except String (Option NavTimingL2)
  resources : Except String (List ResourceEntry)

/-- `multi-base.py` lines 57-58 and 60:
`display_name = name.split('/')[-1] if "/" in name else name` followed by
`"Name": display_name or name` (an empty `display_name` is falsy). -/
def multiDisplayName (name : String) : String :=
  let d := if name.data.contains slash then (splitOnChar slash name).getLastD name else name
  if d = "" then name else d

/-- The resource-row loop body of `multi-base.py` (lines 56-64). -/
def mkMultiRow (r : ResourceEntry) : MultiRow :=
  let n := r.name.getD ""
  { name := multiDisplayName n
  , url := n
  , rtype := r.initiatorType.getD "unknown"
  , durationMs := r.duration.getD 0 }

/-- `multi-base.py` lines 40-71: the part of the `try` block after the
driver has been constructed — navigate, read the navigation entry
(returning the `"Error"` dict when it is falsy), compute the three
metrics with `.get(key, 0)` defaults, and map the resource entries. -/
def multiAfterLaunch (env : MultiEnv) : Except String MultiResult :=
  match env.navigate with
  | .error e => .error e
  | .ok _ =>
    match env.navTiming with
    | .error e => .error e
    | .ok none => .ok (errResult "Navigation timing data is unavailable.")
    | .ok (some t) =>
      let backend := t.responseStart.getD 0 - t.startTime.getD 0
      let frontend := t.domComplete.getD 0 - t.responseStart.getD 0
      let total := t.duration.getD 0
      match env.resources with
      | .error e => .error e
      | .ok rl =>
        .ok { error := none
            , backendMs := some backend
            , frontendMs := some frontend
            , totalMs := some total
            , resourceData := some (rl.map mkMultiRow) }

/-- The `try` block of `multi-base.py`'s `get_website_speed`
(lines 15-71): the browser dispatch chain — Chrome/Firefox/Edge launch a
driver; Safari first checks `platform.system() != "Darwin"` and returns
an `"Error"` dict without launching; any other name returns the
`"Unsupported browser selected."` dict without launching.  The `Bool`
records whether `driver` was assigned. -/
def multiTryBody (browser : String) (env : MultiEnv) :
    Except String MultiResult × Bool :=
  if browser = "Chrome" ∨ browser = "Firefox" ∨ browser = "Edge" then
    match env.launch with
    | .error e => (.error e, false)
    | .ok _ => (multiAfterLaunch env, true)
  else if browser = "Safari" then
    if env.platformSystem ≠ "Darwin" then
      (.ok (errResult "Safari testing is only supported on macOS with SafariDriver enabled."), false)
    else
      match env.launch with
      | .error e => (.error e, false)
      | .ok _ => (multiAfterLaunch env, true)
  else
    (.ok (errResult "Unsupported browser selected."), false)

/-- `multi-base.py` `get_website_speed(url, browser_name)` (lines 13-76):
run the `try` body; `except Exception as e` converts any exception into
an `"Error"` dict; `finally: if driver: driver.quit()`. -/
def get_website_speed (url : String) (browser : String) (env : MultiEnv) :
    BasePy.MeasureOutput MultiResult :=
  let body := multiTryBody browser env
  let res := match body.1 with
    | .ok v => v
    | .error e => errResult ("An unexpected error occurred: " ++ e)
  { result := res, launched := body.2, quitCalled := body.2 }

end MultiBase

namespace MultiBase

/-- A parsed URL as used by `collect_internal_links`: the components of
`urllib.parse.urlparse` that the code reads (`scheme`, `netloc`) plus the
path-and-query remainder. -/
structure Url where
  scheme : String
  netloc : String
  path : String
deriving Repr, DecidableEq

/-- The shapes an anchor `href` attribute can take, as far as
`urllib.parse.urljoin` distinguishes them: an absolute URL (has a
scheme), a root-relative reference (starts with a single `/`), or a
plain relative reference. -/
inductive Href where
  | absolute (u : Url)
  | rootRel (p : String)
  | relative (s : String)
deriving Repr, DecidableEq

/-- The prefix of a path up to and including its final `/` (the RFC 3986
merge step used by `urljoin` for a plain relative reference); an empty
base path merges to `/`. -/
def dropLastSegment (p : String) : String :=
  joinChar slash ((splitOnChar slash p).dropLast) ++ "/"

/-- Model of `urllib.parse.urljoin(base, href)` on the href shapes
above: an absolute href wins; a root-relative href keeps the base's
scheme and netloc; a plain relative href replaces the last segment of
the base's path. -/
def urljoin (base : Url) : Href → Url
  | .absolute u => u
  | .rootRel p => { scheme := base.scheme, netloc := base.netloc, path := p }
  | .relative s =>
    { scheme := base.scheme, netloc := base.netloc
    , path := dropLastSegment base.path ++ s }

/-- The `requests.get` response as read by `collect_internal_links`: the
status code and the `href` attributes of the document's
`<a href=...>` tags in document order. -/
structure FetchResponse where
  statusCode : Nat
  hrefs : List Href
deriving Repr, DecidableEq

/-- One iteration's effect on the `links` set in
`collect_internal_links`: `if parsed_href.netloc == parsed_base.netloc:
links.add(href)`.  The Python `set` is modelled as its insertion-ordered
list of distinct elements, so `add` appends only a new element. -/
def addLink (baseNetloc : String) (links : List Url) (href : Url) : List Url :=
  if href.netloc = baseNetloc ∧ href ∉ links then links ++ [href] else links

/-- The `for a_tag in soup.find_all('a', href=True)` loop of
`collect_internal_links` (lines 90-96): join each href against
`domain`, add it to the set when its netloc matches the seed's, and
`break` once `len(links) >= max_links` (checked after each iteration's
add). -/
def collectLoop (domain : Url) (baseNetloc : String) (maxLinks : Nat) :
    List Href → List Url → List Url
  | [], links => links
  | h :: rest, links =>
    if maxLinks ≤ (addLink baseNetloc links (urljoin domain h)).length then
      addLink baseNetloc links (urljoin domain h)
    else
      collectLoop domain baseNetloc maxLinks rest (addLink baseNetloc links (urljoin domain h))

/-- `multi-base.py` `collect_internal_links(base_url, max_links)`
(lines 79-100): fetch the seed (`fetch` is the outcome of
`requests.get`, `Except.error` modelling a raised network fault, which
the bare `except` turns into `[]`); on a non-200 status return `[]`;
otherwise scan the anchors, resolving each href against
`domain = scheme://netloc` (empty path). -/
def collect_internal_links (base_url : Url)
    (fetch : Except String FetchResponse) (maxLinks : Nat) : List Url :=
  match fetch with
  | .error _ => []
  | .ok resp =>
    if resp.statusCode ≠ 200 then []
    else
      collectLoop { scheme := base_url.scheme, netloc := base_url.netloc, path := "" }
        base_url.netloc maxLinks resp.hrefs []

/-- The scope radio button of `multi-base.py` (line 110). -/
inductive TestScope where
  | singlePage
  | upToTenInternal
deriving Repr, DecidableEq

/-- `multi-base.py` lines 121-124: the list of pages to measure —
`[url]` in single-page scope, `[url] + collect_internal_links(url, 10)`
otherwise. -/
def pages_to_test (scope : TestScope) (url : Url)
    (fetch : Except String FetchResponse) : List Url :=
  match scope with
  | .singlePage => [url]
  | .upToTenInternal => url :: collect_internal_links url fetch 10

end MultiBase

namespace Batch

/-- One row of `all_results_for_comparison` in `base.py`
(lines 131-136): built with `result.get(key, 0)` from a non-error
result. -/
structure ComparisonRow where
  browser : String
  totalMs : Int
  ttfbMs : Int
  frontendMs : Int
deriving Repr, DecidableEq

/-- The `for browser in selected_browsers` loop of `base.py`
(lines 123-136): measure each browser; a result carrying `"Error"` is
displayed and skipped (`continue`); otherwise its comparison row is
appended.  `env` gives the external-world outcome for each browser. -/
def baseComparisonRows (url : String) (env : String → BasePy.BaseEnv) :
    List String → List ComparisonRow
  | [] => []
  | b :: rest =>
    let r := (BasePy.get_website_speed url b (env b)).result
    if r.error.isSome then baseComparisonRows url env rest
    else
      { browser := b, totalMs := r.totalMs.getD 0, ttfbMs := r.ttfbMs.getD 0
      , frontendMs := r.frontendMs.getD 0 } :: baseComparisonRows url env rest

/-- One row of `page_results` in `multi-base.py` (lines 149-155). -/
structure SummaryRow where
  page : String
  browser : String
  backendMs : Int
  frontendMs : Int
  totalMs : Int
deriving Repr, DecidableEq

/-- The inner `for browser in browsers_to_test` loop of `multi-base.py`
(lines 141-155): measure each browser on one page; an error result is
displayed and skipped; otherwise its summary row is appended. -/
def multiBrowserRows (env : String → String → MultiBase.MultiEnv) (page : String) :
    List String → List SummaryRow
  | [] => []
  | b :: rest =>
    let r := (MultiBase.get_website_speed page b (env page b)).result
    if r.error.isSome then multiBrowserRows env page rest
    else
      { page := page, browser := b, backendMs := r.backendMs.getD 0
      , frontendMs := r.frontendMs.getD 0, totalMs := r.totalMs.getD 0 }
        :: multiBrowserRows env page rest

/-- The outer `for page in pages_to_test` loop of `multi-base.py`
(lines 136-173): `all_results.extend(page_results)` page by page. -/
def multiAllResults (env : String → String → MultiBase.MultiEnv)
    (browsers : List String) : List String → List SummaryRow
  | [] => []
  | p :: rest => multiBrowserRows env p browsers ++ multiAllResults env browsers rest

/-- The (page, browser) pairs in the order the nested loops of
`multi-base.py` visit them: pages outer, browsers inner. -/
def pairList : List String → List String → List (String × String)
  | [], _ => []
  | p :: rest, browsers => browsers.map (fun b => (p, b)) ++ pairList rest browsers

/-- The contribution of one browser to `all_results_for_comparison` in
`base.py`: `none` when its result carries `"Error"` (the pair is
displayed as an error and skipped), otherwise its comparison row. -/
def baseRowOf (url : String) (env : String → BasePy.BaseEnv) (b : String) :
    Option ComparisonRow :=
  if ((BasePy.get_website_speed url b (env b)).result.error.isSome) then none
  else some
    { browser := b
    , totalMs := (BasePy.get_website_speed url b (env b)).result.totalMs.getD 0
    , ttfbMs := (BasePy.get_website_speed url b (env b)).result.ttfbMs.getD 0
    , frontendMs := (BasePy.get_website_speed url b (env b)).result.frontendMs.getD 0 }

/-- The contribution of one (page, browser) pair to `all_results` in
`multi-base.py`: `none` when its result carries `"Error"`, otherwise its
summary row. -/
def multiRowOf (env : String → String → MultiBase.MultiEnv)
    (pb : String × String) : Option SummaryRow :=
  if ((MultiBase.get_website_speed pb.1 pb.2 (env pb.1 pb.2)).result.error.isSome) then none
  else some
    { page := pb.1
    , browser := pb.2
    , backendMs := (MultiBase.get_website_speed pb.1 pb.2 (env pb.1 pb.2)).result.backendMs.getD 0
    , frontendMs := (MultiBase.get_website_speed pb.1 pb.2 (env pb.1 pb.2)).result.frontendMs.getD 0
    , totalMs := (MultiBase.get_website_speed pb.1 pb.2 (env pb.1 pb.2)).result.totalMs.getD 0 }

end Batch

/-! ## Lemmas about the link collector -/

namespace MultiBase

lemma addLink_length_le (n : String) (ls : List Url) (u : Url) :
    (addLink n ls u).length ≤ ls.length + 1 := by
  unfold addLink
  split
  · simp
  · exact Nat.le_succ _

lemma length_le_addLink_length (n : String) (ls : List Url) (u : Url) :
    ls.length ≤ (addLink n ls u).length := by
  unfold addLink
  split
  · simp
  · exact Nat.le_refl _

lemma mem_addLink (n : String) (ls : List Url) (u v : Url)
    (h : v ∈ addLink n ls u) : v ∈ ls ∨ (v = u ∧ u.netloc = n) := by
  unfold addLink at h
  split at h
  · rename_i hc
    rcases List.mem_append.mp h with h1 | h2
    · exact Or.inl h1
    · exact Or.inr ⟨List.mem_singleton.mp h2, hc.1⟩
  · exact Or.inl h

lemma addLink_nodup (n : String) (ls : List Url) (u : Url)
    (h : ls.Nodup) : (addLink n ls u).Nodup := by
  unfold addLink
  split
  · rename_i hc
    simpa [List.nodup_append] using ⟨h, hc.2⟩
  · exact h

lemma collectLoop_length_le (d : Url) (n : String) (m : Nat) (hs : List Href) :
    ∀ acc : List Url, acc.length < m → (collectLoop d n m hs acc).length ≤ m := by
  induction hs with
  | nil =>
    intro acc h
    simpa [collectLoop] using Nat.le_of_lt h
  | cons h rest ih =>
    intro acc hlt
    rw [collectLoop]
    split
    · calc (addLink n acc (urljoin d h)).length ≤ acc.length + 1 :=
            addLink_length_le n acc (urljoin d h)
        _ ≤ m := hlt
    · rename_i hgt
      exact ih _ (Nat.lt_of_not_le hgt)

lemma collectLoop_netloc (d : Url) (n : String) (m : Nat) (hs : List Href) :
    ∀ acc : List Url, (∀ v ∈ acc, v.netloc = n) →
      ∀ v ∈ collectLoop d n m hs acc, v.netloc = n := by
  induction hs with
  | nil =>
    intro acc hacc v hv
    exact hacc v (by simpa [collectLoop] using hv)
  | cons h rest ih =>
    intro acc hacc v hv
    rw [collectLoop] at hv
    have step : ∀ w ∈ addLink n acc (urljoin d h), w.netloc = n := by
      intro w hw
      rcases mem_addLink n acc (urljoin d h) w hw with h1 | h2
      · exact hacc w h1
      · rw [h2.1]; exact h2.2
    split at hv
    · exact step v hv
    · exact ih _ step v hv

lemma collectLoop_nodup (d : Url) (n : String) (m : Nat) (hs : List Href) :
    ∀ acc : List Url, acc.Nodup → (collectLoop d n m hs acc).Nodup := by
  induction hs with
  | nil =>
    intro acc hacc
    simpa [collectLoop] using hacc
  | cons h rest ih =>
    intro acc hacc
    rw [collectLoop]
    split
    · exact addLink_nodup n acc (urljoin d h) hacc
    · exact ih _ (addLink_nodup n acc (urljoin d h) hacc)

lemma collect_internal_links_length_le (seed : Url)
    (fetch : Except String FetchResponse) {m : Nat} (hm : 0 < m) :
    (collect_internal_links seed fetch m).length ≤ m := by
  unfold collect_internal_links
  match fetch with
  | .error e => simp
  | .ok resp =>
    dsimp only
    split
    · simp
    · exact collectLoop_length_le _ _ m resp.hrefs [] (by simpa using hm)

lemma collect_internal_links_netloc (seed : Url)
    (fetch : Except String FetchResponse) (m : Nat) :
    ∀ u ∈ collect_internal_links seed fetch m, u.netloc = seed.netloc := by
  unfold collect_internal_links
  match fetch with
  | .error e => simp
  | .ok resp =>
    dsimp only
    split
    · simp
    · exact collectLoop_netloc _ _ m resp.hrefs [] (by simp)

lemma collect_internal_links_nodup (seed : Url)
    (fetch : Except String FetchResponse) (m : Nat) :
    (collect_internal_links seed fetch m).Nodup := by
  unfold collect_internal_links
  match fetch with
  | .error e => simp
  | .ok resp =>
    dsimp only
    split
    · simp
    · exact collectLoop_nodup _ _ m resp.hrefs [] (by simp)

lemma collect_internal_links_non200 (seed : Url) (resp : FetchResponse)
    (m : Nat) (h : resp.statusCode ≠ 200) :
    collect_internal_links seed (.ok resp) m = [] := by
  unfold collect_internal_links
  simp [h]

lemma collect_internal_links_fault (seed : Url) (e : String) (m : Nat) :
    collect_internal_links seed (.error e) m = [] := by
  unfold collect_internal_links
  simp

end MultiBase

/-! ## Lemmas about the batch runners -/

lemma length_filterMap_add_countP {α β : Type} (f : α → Option β) (l : List α) :
    (l.filterMap f).length + l.countP (fun a => (f a).isNone) = l.length := by
  induction l with
  | nil => simp
  | cons a rest ih =>
    cases hfa : f a <;>
      simp [List.filterMap_cons, hfa, List.countP_cons] <;> omega

namespace Batch

lemma baseRowOf_isNone (url : String) (env : String → BasePy.BaseEnv) (b : String) :
    (baseRowOf url env b).isNone
      = ((BasePy.get_website_speed url b (env b)).result.error.isSome) := by
  by_cases h : ((BasePy.get_website_speed url b (env b)).result.error.isSome) <;>
    simp [baseRowOf, h]

lemma multiRowOf_isNone (env : String → String → MultiBase.MultiEnv)
    (pb : String × String) :
    (multiRowOf env pb).isNone
      = ((MultiBase.get_website_speed pb.1 pb.2 (env pb.1 pb.2)).result.error.isSome) := by
  by_cases h : ((MultiBase.get_website_speed pb.1 pb.2 (env pb.1 pb.2)).result.error.isSome) <;>
    simp [multiRowOf, h]

lemma baseComparisonRows_eq_filterMap (url : String)
    (env : String → BasePy.BaseEnv) (browsers : List String) :
    baseComparisonRows url env browsers = browsers.filterMap (baseRowOf url env) := by
  induction browsers with
  | nil => rfl
  | cons b rest ih =>
    by_cases h : ((BasePy.get_website_speed url b (env b)).result.error.isSome) <;>
      simp [baseComparisonRows, baseRowOf, List.filterMap_cons, h, ih]

lemma multiBrowserRows_eq_filterMap (env : String → String → MultiBase.MultiEnv)
    (page : String) (browsers : List String) :
    multiBrowserRows env page browsers
      = browsers.filterMap (fun b => multiRowOf env (page, b)) := by
  induction browsers with
  | nil => rfl
  | cons b rest ih =>
    by_cases h : ((MultiBase.get_website_speed page b (env page b)).result.error.isSome) <;>
      simp [multiBrowserRows, multiRowOf, List.filterMap_cons, h, ih]

lemma multiAllResults_eq_filterMap (env : String → String → MultiBase.MultiEnv)
    (browsers pages : List String) :
    multiAllResults env browsers pages
      = (pairList pages browsers).filterMap (multiRowOf env) := by
  induction pages with
  | nil => rfl
  | cons p rest ih =>
    rw [multiAllResults, pairList, List.filterMap_append, ih,
      multiBrowserRows_eq_filterMap, List.filterMap_map]
    rfl

lemma pairList_length (pages browsers : List String) :
    (pairList pages browsers).length = pages.length * browsers.length := by
  induction pages with
  | nil => simp [pairList]
  | cons p rest ih => simp [pairList, ih, Nat.succ_mul, Nat.add_comm]

end Batch

/-! ## Claim theorems -/

/-- C6: `collect_internal_links(seed, 10)` returns at most 10 entries,
each with host (netloc) exactly equal to the seed's, with no duplicates;
and whenever the HTTP GET returns a non-200 status or raises a network
fault, it returns the empty list rather than propagating a fault. -/
theorem C6_collect_links_bounded_samehost_nodup
    (seed : MultiBase.Url) (fetch : Except String MultiBase.FetchResponse) :
    (MultiBase.collect_internal_links seed fetch 10).length ≤ 10 ∧
    (∀ u ∈ MultiBase.collect_internal_links seed fetch 10, u.netloc = seed.netloc) ∧
    (MultiBase.collect_internal_links seed fetch 10).Nodup ∧
    (∀ resp : MultiBase.FetchResponse, fetch = .ok resp → resp.statusCode ≠ 200 →
      MultiBase.collect_internal_links seed fetch 10 = []) ∧
    (∀ e : String, fetch = .error e →
      MultiBase.collect_internal_links seed fetch 10 = []) := by
  refine ⟨MultiBase.collect_internal_links_length_le seed fetch (by norm_num),
    MultiBase.collect_internal_links_netloc seed fetch 10,
    MultiBase.collect_internal_links_nodup seed fetch 10, ?_, ?_⟩
  · intro resp hf h200
    subst hf
    exact MultiBase.collect_internal_links_non200 seed resp 10 h200
  · intro e hf
    subst hf
    exact MultiBase.collect_internal_links_fault seed e 10

/-- Witness for C6 at concrete inputs: a raised fetch fault yields `[]`,
and a successful fetch with one anchor stays within the cap with the
seed's host. -/
theorem C6_collect_links_bounded_samehost_nodup_witness :
    MultiBase.collect_internal_links ⟨"https", "h", "/"⟩ (.error "timeout") 10 = [] ∧
    MultiBase.collect_internal_links ⟨"https", "h", "/"⟩ (.ok ⟨404, [MultiBase.Href.relative "a.html"]⟩) 10 = [] ∧
    (MultiBase.collect_internal_links ⟨"https", "h", "/"⟩ (.ok ⟨200, [MultiBase.Href.relative "a.html"]⟩) 10).length ≤ 10 :=
  ⟨(C6_collect_links_bounded_samehost_nodup ⟨"https", "h", "/"⟩ (.error "timeout")).2.2.2.2
      "timeout" rfl,
   (C6_collect_links_bounded_samehost_nodup ⟨"https", "h", "/"⟩
      (.ok ⟨404, [MultiBase.Href.relative "a.html"]⟩)).2.2.2.1
      ⟨404, [MultiBase.Href.relative "a.html"]⟩ rfl (by norm_num),
   (C6_collect_links_bounded_samehost_nodup ⟨"https", "h", "/"⟩
      (.ok ⟨200, [MultiBase.Href.relative "a.html"]⟩)).1⟩

/-- C7 as stated is false: with ten collected internal links the
multi-page scope measures `[url] + collect_internal_links(url, 10)` —
eleven pages, exceeding ten.  Concretely, a seed page carrying ten
distinct same-host links yields a `pages_to_test` list of length 11. -/
theorem C7_counterexample :
    (MultiBase.pages_to_test .upToTenInternal ⟨"https", "h", "/"⟩
      (.ok ⟨200, [MultiBase.Href.absolute ⟨"https", "h", "/a"⟩,
        MultiBase.Href.absolute ⟨"https", "h", "/b"⟩,
        MultiBase.Href.absolute ⟨"https", "h", "/c"⟩,
        MultiBase.Href.absolute ⟨"https", "h", "/d"⟩,
        MultiBase.Href.absolute ⟨"https", "h", "/e"⟩,
        MultiBase.Href.absolute ⟨"https", "h", "/f"⟩,
        MultiBase.Href.absolute ⟨"https", "h", "/g"⟩,
        MultiBase.Href.absolute ⟨"https", "h", "/i"⟩,
        MultiBase.Href.absolute ⟨"https", "h", "/j"⟩,
        MultiBase.Href.absolute ⟨"https", "h", "/k"⟩]⟩)).length = 11 := by
  rfl

/-- C7 amended: in the multi-page scope the measurement covers the seed
page plus at most ten collected internal pages — at most eleven measured
pages in total (and exactly one in single-page scope). -/
theorem C7_pages_bound (url : MultiBase.Url)
    (fetch : Except String MultiBase.FetchResponse) :
    (MultiBase.pages_to_test .upToTenInternal url fetch).length ≤ 11 ∧
    (MultiBase.pages_to_test .singlePage url fetch).length = 1 := by
  constructor
  · have h := MultiBase.collect_internal_links_length_le url fetch (m := 10) (by norm_num)
    simpa [MultiBase.pages_to_test] using Nat.succ_le_succ h
  · rfl

/-- C1 as stated is false in its non-negativity part: `base.py` computes
the metrics as raw timestamp differences with `.get(key, 0)` defaults, so
a snapshot whose `responseStart` key is absent (read as 0) but whose
`domComplete` is non-zero yields a success result with a negative
`Time to First Byte (ms)` of `0 - 1000 = -1000`. -/
theorem C1_counterexample :
    ((BasePy.get_website_speed "https://example.com" "Chrome"
        { launch := .ok (), navigate := .ok ()
        , timing := .ok { navigationStart := some 1000, responseStart := none
                        , domComplete := some 2400, domainLookupStart := none
                        , domainLookupEnd := none, connectStart := none
                        , connectEnd := none }
        , resources := .ok [] }).result.error = none) ∧
    ((BasePy.get_website_speed "https://example.com" "Chrome"
        { launch := .ok (), navigate := .ok ()
        , timing := .ok { navigationStart := some 1000, responseStart := none
                        , domComplete := some 2400, domainLookupStart := none
                        , domainLookupEnd := none, connectStart := none
                        , connectEnd := none }
        , resources := .ok [] }).result.ttfbMs = some (-1000)) ∧
    ((-1000 : Int) < 0) := by
  refine ⟨rfl, by decide, by norm_num⟩

/-- C1 amended: for every url and browser kind, `get_website_speed`
returns a value (all failures are values, never raised faults), and the
returned dict is exactly one of: no `"Error"` key with every timing field
populated (as integer timestamp differences, which may be negative — the
code does not guarantee non-negativity), or `"Error"` set with no numeric
timing field — never a partial mix.  Stated for both variants. -/
theorem C1_result_dichotomy :
    (∀ (url browser : String) (env : BasePy.BaseEnv),
      ((BasePy.get_website_speed url browser env).result.error = none ∧
       (BasePy.get_website_speed url browser env).result.ttfbMs.isSome = true ∧
       (BasePy.get_website_speed url browser env).result.frontendMs.isSome = true ∧
       (BasePy.get_website_speed url browser env).result.totalMs.isSome = true ∧
       (BasePy.get_website_speed url browser env).result.dnsMs.isSome = true ∧
       (BasePy.get_website_speed url browser env).result.tcpMs.isSome = true ∧
       (BasePy.get_website_speed url browser env).result.resourceData.isSome = true)
      ∨
      ((BasePy.get_website_speed url browser env).result.error.isSome = true ∧
       (BasePy.get_website_speed url browser env).result.ttfbMs = none ∧
       (BasePy.get_website_speed url browser env).result.frontendMs = none ∧
       (BasePy.get_website_speed url browser env).result.totalMs = none ∧
       (BasePy.get_website_speed url browser env).result.dnsMs = none ∧
       (BasePy.get_website_speed url browser env).result.tcpMs = none ∧
       (BasePy.get_website_speed url browser env).result.resourceData = none)) ∧
    (∀ (url browser : String) (env : MultiBase.MultiEnv),
      ((MultiBase.get_website_speed url browser env).result.error = none ∧
       (MultiBase.get_website_speed url browser env).result.backendMs.isSome = true ∧
       (MultiBase.get_website_speed url browser env).result.frontendMs.isSome = true ∧
       (MultiBase.get_website_speed url browser env).result.totalMs.isSome = true ∧
       (MultiBase.get_website_speed url browser env).result.resourceData.isSome = true)
      ∨
      ((MultiBase.get_website_speed url browser env).result.error.isSome = true ∧
       (MultiBase.get_website_speed url browser env).result.backendMs = none ∧
       (MultiBase.get_website_speed url browser env).result.frontendMs = none ∧
       (MultiBase.get_website_speed url browser env).result.totalMs = none ∧
       (MultiBase.get_website_speed url browser env).result.resourceData = none)) := by
  constructor
  · intro url browser env
    rcases env with ⟨l, nav, tim, res⟩
    by_cases hb : browser = "Chrome" ∨ browser = "Firefox" ∨ browser = "Edge"
    · cases l with
      | error e => simp [BasePy.get_website_speed, BasePy.baseTryBody, BasePy.errResult, hb]
      | ok u =>
        cases nav with
        | error e => simp [BasePy.get_website_speed, BasePy.baseTryBody, BasePy.errResult, hb]
        | ok u2 =>
          cases tim with
          | error e => simp [BasePy.get_website_speed, BasePy.baseTryBody, BasePy.errResult, hb]
          | ok t =>
            by_cases hdc : t.domComplete.getD 0 = 0
            · simp [BasePy.get_website_speed, BasePy.baseTryBody, BasePy.errResult, hb, hdc]
            · cases res with
              | error e =>
                simp [BasePy.get_website_speed, BasePy.baseTryBody, BasePy.errResult, hb, hdc]
              | ok rl =>
                simp [BasePy.get_website_speed, BasePy.baseTryBody, hb, hdc]
    · simp [BasePy.get_website_speed, BasePy.baseTryBody, BasePy.errResult, hb]
  · intro url browser env
    rcases env with ⟨ps, l, nav, tim, res⟩
    by_cases hb : browser = "Chrome" ∨ browser = "Firefox" ∨ browser = "Edge"
    · cases l with
      | error e =>
        simp [MultiBase.get_website_speed, MultiBase.multiTryBody, MultiBase.errResult, hb]
      | ok u =>
        cases nav with
        | error e =>
          simp [MultiBase.get_website_speed, MultiBase.multiTryBody,
            MultiBase.multiAfterLaunch, MultiBase.errResult, hb]
        | ok u2 =>
          cases tim with
          | error e =>
            simp [MultiBase.get_website_speed, MultiBase.multiTryBody,
              MultiBase.multiAfterLaunch, MultiBase.errResult, hb]
          | ok topt =>
            cases topt with
            | none =>
              simp [MultiBase.get_website_speed, MultiBase.multiTryBody,
                MultiBase.multiAfterLaunch, MultiBase.errResult, hb]
            | some t =>
              cases res with
              | error e =>
                simp [MultiBase.get_website_speed, MultiBase.multiTryBody,
                  MultiBase.multiAfterLaunch, MultiBase.errResult, hb]
              | ok rl =>
                simp [MultiBase.get_website_speed, MultiBase.multiTryBody,
                  MultiBase.multiAfterLaunch, hb]
    · by_cases hs : browser = "Safari"
      · by_cases hd : ps = "Darwin"
        · cases l with
          | error e =>
            simp [MultiBase.get_website_speed, MultiBase.multiTryBody,
              MultiBase.errResult, hb, hs, hd]
          | ok u =>
            cases nav with
            | error e =>
              simp [MultiBase.get_website_speed, MultiBase.multiTryBody,
                MultiBase.multiAfterLaunch, MultiBase.errResult, hb, hs, hd]
            | ok u2 =>
              cases tim with
              | error e =>
                simp [MultiBase.get_website_speed, MultiBase.multiTryBody,
                  MultiBase.multiAfterLaunch, MultiBase.errResult, hb, hs, hd]
              | ok topt =>
                cases topt with
                | none =>
                  simp [MultiBase.get_website_speed, MultiBase.multiTryBody,
                    MultiBase.multiAfterLaunch, MultiBase.errResult, hb, hs, hd]
                | some t =>
                  cases res with
                  | error e =>
                    simp [MultiBase.get_website_speed, MultiBase.multiTryBody,
                      MultiBase.multiAfterLaunch, MultiBase.errResult, hb, hs, hd]
                  | ok rl =>
                    simp [MultiBase.get_website_speed, MultiBase.multiTryBody,
                      MultiBase.multiAfterLaunch, hb, hs, hd]
        · simp [MultiBase.get_website_speed, MultiBase.multiTryBody,
            MultiBase.errResult, hb, hs, hd]
      · simp [MultiBase.get_website_speed, MultiBase.multiTryBody,
          MultiBase.errResult, hb, hs]

/-- C2: for every navigation-timing snapshot with a non-zero completion
marker, `base.py` computes TTFB as `responseStart - navigationStart`,
frontend as `domComplete - responseStart` and total as
`domComplete - navigationStart`; `multi-base.py` computes backend as
`responseStart - startTime`, frontend as `domComplete - responseStart`
and total as the navigation entry's `duration` (the full navigation
duration).  The witness instantiates the spec's example
`navigationStart=1000, responseStart=1300, domComplete=2400` giving
`300 / 1100 / 1400`. -/
theorem C2_timing_formulas :
    (∀ (url browser : String) (env : BasePy.BaseEnv) (t : NavTimingL1)
       (rl : List ResourceEntry),
      (browser = "Chrome" ∨ browser = "Firefox" ∨ browser = "Edge") →
      env.launch = .ok () → env.navigate = .ok () → env.timing = .ok t →
      env.resources = .ok rl → t.domComplete.getD 0 ≠ 0 →
      (BasePy.get_website_speed url browser env).result.error = none ∧
      (BasePy.get_website_speed url browser env).result.ttfbMs
        = some (t.responseStart.getD 0 - t.navigationStart.getD 0) ∧
      (BasePy.get_website_speed url browser env).result.frontendMs
        = some (t.domComplete.getD 0 - t.responseStart.getD 0) ∧
      (BasePy.get_website_speed url browser env).result.totalMs
        = some (t.domComplete.getD 0 - t.navigationStart.getD 0)) ∧
    (∀ (url browser : String) (env : MultiBase.MultiEnv) (t : MultiBase.NavTimingL2)
       (rl : List ResourceEntry),
      (browser = "Chrome" ∨ browser = "Firefox" ∨ browser = "Edge") →
      env.launch = .ok () → env.navigate = .ok () → env.navTiming = .ok (some t) →
      env.resources = .ok rl →
      (MultiBase.get_website_speed url browser env).result.error = none ∧
      (MultiBase.get_website_speed url browser env).result.backendMs
        = some (t.responseStart.getD 0 - t.startTime.getD 0) ∧
      (MultiBase.get_website_speed url browser env).result.frontendMs
        = some (t.domComplete.getD 0 - t.responseStart.getD 0) ∧
      (MultiBase.get_website_speed url browser env).result.totalMs
        = some (t.duration.getD 0)) := by
  constructor
  · intro url browser env t rl hb hl hn ht hr hdc
    rcases env with ⟨l, nav, tim, res⟩
    cases hl; cases hn; cases ht; cases hr
    simp [BasePy.get_website_speed, BasePy.baseTryBody, hb, hdc]
  · intro url browser env t rl hb hl hn ht hr
    rcases env with ⟨ps, l, nav, tim, res⟩
    cases hl; cases hn; cases ht; cases hr
    simp [MultiBase.get_website_speed, MultiBase.multiTryBody,
      MultiBase.multiAfterLaunch, hb]

/-- Witness for C2: the spec's example snapshot yields
`TTFB = 300`, `frontend = 1100`, `total = 1400` in `base.py`. -/
theorem C2_timing_formulas_witness :
    (BasePy.get_website_speed "https://example.com" "Chrome"
        { launch := .ok (), navigate := .ok ()
        , timing := .ok { navigationStart := some 1000, responseStart := some 1300
                        , domComplete := some 2400, domainLookupStart := none
                        , domainLookupEnd := none, connectStart := none
                        , connectEnd := none }
        , resources := .ok [] }).result.ttfbMs = some 300 ∧
    (BasePy.get_website_speed "https://example.com" "Chrome"
        { launch := .ok (), navigate := .ok ()
        , timing := .ok { navigationStart := some 1000, responseStart := some 1300
                        , domComplete := some 2400, domainLookupStart := none
                        , domainLookupEnd := none, connectStart := none
                        , connectEnd := none }
        , resources := .ok [] }).result.frontendMs = some 1100 ∧
    (BasePy.get_website_speed "https://example.com" "Chrome"
        { launch := .ok (), navigate := .ok ()
        , timing := .ok { navigationStart := some 1000, responseStart := some 1300
                        , domComplete := some 2400, domainLookupStart := none
                        , domainLookupEnd := none, connectStart := none
                        , connectEnd := none }
        , resources := .ok [] }).result.totalMs = some 1400 := by
  have h := C2_timing_formulas.1 "https://example.com" "Chrome"
    { launch := .ok (), navigate := .ok ()
    , timing := .ok { navigationStart := some 1000, responseStart := some 1300
                    , domComplete := some 2400, domainLookupStart := none
                    , domainLookupEnd := none, connectStart := none
                    , connectEnd := none }
    , resources := .ok [] }
    { navigationStart := some 1000, responseStart := some 1300
    , domComplete := some 2400, domainLookupStart := none
    , domainLookupEnd := none, connectStart := none, connectEnd := none }
    [] (Or.inl rfl) rfl rfl rfl rfl (by decide)
  exact ⟨h.2.1.trans (by decide), h.2.2.1.trans (by decide), h.2.2.2.trans (by decide)⟩

/-- C3 as stated is false for `multi-base.py`: a navigation entry whose
`domComplete` is 0 (the completion marker zero) is not treated as an
error there — the code returns a success result with numeric fields
(here a negative frontend value), contradicting "returns a result whose
error field is set". -/
theorem C3_counterexample :
    ((MultiBase.get_website_speed "https://example.com" "Chrome"
        { platformSystem := "Linux", launch := .ok (), navigate := .ok ()
        , navTiming := .ok (some { startTime := some 0, responseStart := some 100
                                 , domComplete := some 0, duration := some 500 })
        , resources := .ok [] }).result.error = none) ∧
    ((MultiBase.get_website_speed "https://example.com" "Chrome"
        { platformSystem := "Linux", launch := .ok (), navigate := .ok ()
        , navTiming := .ok (some { startTime := some 0, responseStart := some 100
                                 , domComplete := some 0, duration := some 500 })
        , resources := .ok [] }).result.frontendMs = some (-100)) := by
  exact ⟨rfl, by decide⟩

/-- C3 amended: in `base.py` a zero (or absent, hence read as 0)
`domComplete` yields the error dict `"Page did not finish loading."`
with no numeric fields; in `multi-base.py` only an unavailable
navigation-timing entry yields the error dict
`"Navigation timing data is unavailable."` with no numeric fields — a
zero `domComplete` there silently proceeds (see the counterexample). -/
theorem C3_timing_unavailable (url browser : String) :
    (∀ (env : BasePy.BaseEnv) (t : NavTimingL1),
      (browser = "Chrome" ∨ browser = "Firefox" ∨ browser = "Edge") →
      env.launch = .ok () → env.navigate = .ok () → env.timing = .ok t →
      t.domComplete.getD 0 = 0 →
      (BasePy.get_website_speed url browser env).result
        = BasePy.errResult "Page did not finish loading.") ∧
    (∀ env : MultiBase.MultiEnv,
      (browser = "Chrome" ∨ browser = "Firefox" ∨ browser = "Edge") →
      env.launch = .ok () → env.navigate = .ok () → env.navTiming = .ok none →
      (MultiBase.get_website_speed url browser env).result
        = MultiBase.errResult "Navigation timing data is unavailable.") := by
  constructor
  · intro env t hb hl hn ht hdc
    rcases env with ⟨l, nav, tim, res⟩
    cases hl; cases hn; cases ht
    simp [BasePy.get_website_speed, BasePy.baseTryBody, hb, hdc]
  · intro env hb hl hn ht
    rcases env with ⟨ps, l, nav, tim, res⟩
    cases hl; cases hn; cases ht
    simp [MultiBase.get_website_speed, MultiBase.multiTryBody,
      MultiBase.multiAfterLaunch, hb]

/-- Witness for C3 (amended): concrete runs of both variants hitting the
timing-unavailable paths. -/
theorem C3_timing_unavailable_witness :
    (BasePy.get_website_speed "https://example.com" "Chrome"
        { launch := .ok (), navigate := .ok ()
        , timing := .ok { navigationStart := some 1000, responseStart := some 1300
                        , domComplete := none, domainLookupStart := none
                        , domainLookupEnd := none, connectStart := none
                        , connectEnd := none }
        , resources := .ok [] }).result
      = BasePy.errResult "Page did not finish loading." ∧
    (MultiBase.get_website_speed "https://example.com" "Firefox"
        { platformSystem := "Linux", launch := .ok (), navigate := .ok ()
        , navTiming := .ok none, resources := .ok [] }).result
      = MultiBase.errResult "Navigation timing data is unavailable." :=
  ⟨(C3_timing_unavailable "https://example.com" "Chrome").1
      { launch := .ok (), navigate := .ok ()
      , timing := .ok { navigationStart := some 1000, responseStart := some 1300
                      , domComplete := none, domainLookupStart := none
                      , domainLookupEnd := none, connectStart := none
                      , connectEnd := none }
      , resources := .ok [] }
      { navigationStart := some 1000, responseStart := some 1300
      , domComplete := none, domainLookupStart := none
      , domainLookupEnd := none, connectStart := none, connectEnd := none }
      (Or.inl rfl) rfl rfl rfl rfl,
   (C3_timing_unavailable "https://example.com" "Firefox").2
      { platformSystem := "Linux", launch := .ok (), navigate := .ok ()
      , navTiming := .ok none, resources := .ok [] }
      (Or.inr (Or.inl rfl)) rfl rfl rfl⟩

/-- C4: for every batch run over N (page, browser) pairs of which
exactly K fail, the aggregate comparison input is the in-order list of
the successful pairs' rows — each pair contributes independently of any
other pair's failure, so no failure prevents subsequent pairs from
running — it has exactly N − K entries, and
successCount + errorCount = totalPairs.  Stated for the single-loop
runner of `base.py` and the nested pages×browsers runner of
`multi-base.py`. -/
theorem C4_batch_isolation_and_counts :
    (∀ (url : String) (env : String → BasePy.BaseEnv) (browsers : List String),
      Batch.baseComparisonRows url env browsers
        = browsers.filterMap (Batch.baseRowOf url env) ∧
      (Batch.baseComparisonRows url env browsers).length
          + browsers.countP
              (fun b => ((BasePy.get_website_speed url b (env b)).result.error.isSome))
        = browsers.length) ∧
    (∀ (env : String → String → MultiBase.MultiEnv) (pages browsers : List String),
      Batch.multiAllResults env browsers pages
        = (Batch.pairList pages browsers).filterMap (Batch.multiRowOf env) ∧
      (Batch.multiAllResults env browsers pages).length
          + (Batch.pairList pages browsers).countP
              (fun pb => ((MultiBase.get_website_speed pb.1 pb.2 (env pb.1 pb.2)).result.error.isSome))
        = pages.length * browsers.length) := by
  constructor
  · intro url env browsers
    refine ⟨Batch.baseComparisonRows_eq_filterMap url env browsers, ?_⟩
    have hcount :
        browsers.countP (fun b => (Batch.baseRowOf url env b).isNone)
          = browsers.countP
              (fun b => ((BasePy.get_website_speed url b (env b)).result.error.isSome)) := by
      have hf : (fun b => (Batch.baseRowOf url env b).isNone)
          = (fun b => ((BasePy.get_website_speed url b (env b)).result.error.isSome)) :=
        funext (Batch.baseRowOf_isNone url env)
      rw [hf]
    rw [Batch.baseComparisonRows_eq_filterMap url env browsers, ← hcount]
    exact length_filterMap_add_countP (Batch.baseRowOf url env) browsers
  · intro env pages browsers
    refine ⟨Batch.multiAllResults_eq_filterMap env browsers pages, ?_⟩
    have hcount :
        (Batch.pairList pages browsers).countP
            (fun pb => (Batch.multiRowOf env pb).isNone)
          = (Batch.pairList pages browsers).countP
              (fun pb => ((MultiBase.get_website_speed pb.1 pb.2 (env pb.1 pb.2)).result.error.isSome)) := by
      have hf : (fun pb => (Batch.multiRowOf env pb).isNone)
          = (fun pb : String × String =>
              ((MultiBase.get_website_speed pb.1 pb.2 (env pb.1 pb.2)).result.error.isSome)) :=
        funext (Batch.multiRowOf_isNone env)
      rw [hf]
    rw [Batch.multiAllResults_eq_filterMap env browsers pages, ← hcount,
      ← Batch.pairList_length pages browsers]
    exact length_filterMap_add_countP (Batch.multiRowOf env) (Batch.pairList pages browsers)

/-- C5: an unsupported browser kind yields an error result without any
session launch in both variants (`base.py` raises `ValueError` inside
its own `try`, so the caller still receives an error dict), and Safari
on a non-macOS host yields the platform-unsupported error dict without a
launch. -/
theorem C5_unsupported_no_launch :
    (∀ (url browser : String) (env : BasePy.BaseEnv),
      browser ≠ "Chrome" → browser ≠ "Firefox" → browser ≠ "Edge" →
      (BasePy.get_website_speed url browser env).result
        = BasePy.errResult "An unexpected error occurred: Unsupported browser selected." ∧
      (BasePy.get_website_speed url browser env).launched = false) ∧
    (∀ (url browser : String) (env : MultiBase.MultiEnv),
      browser ≠ "Chrome" → browser ≠ "Firefox" → browser ≠ "Edge" → browser ≠ "Safari" →
      (MultiBase.get_website_speed url browser env).result
        = MultiBase.errResult "Unsupported browser selected." ∧
      (MultiBase.get_website_speed url browser env).launched = false) ∧
    (∀ (url : String) (env : MultiBase.MultiEnv),
      env.platformSystem ≠ "Darwin" →
      (MultiBase.get_website_speed url "Safari" env).result
        = MultiBase.errResult "Safari testing is only supported on macOS with SafariDriver enabled." ∧
      (MultiBase.get_website_speed url "Safari" env).launched = false) := by
  refine ⟨?_, ?_, ?_⟩
  · intro url browser env h1 h2 h3
    simp [BasePy.get_website_speed, BasePy.baseTryBody, h1, h2, h3]
  · intro url browser env h1 h2 h3 h4
    simp [MultiBase.get_website_speed, MultiBase.multiTryBody, h1, h2, h3, h4]
  · intro url env hd
    simp [MultiBase.get_website_speed, MultiBase.multiTryBody, hd]

/-- Witness for C5: the browser name `"Opera"` and Safari on a Linux
host, at a concrete environment. -/
theorem C5_unsupported_no_launch_witness :
    (BasePy.get_website_speed "https://example.com" "Opera"
        { launch := .ok (), navigate := .ok ()
        , timing := .error "never reached", resources := .ok [] }).result
      = BasePy.errResult "An unexpected error occurred: Unsupported browser selected." ∧
    (MultiBase.get_website_speed "https://example.com" "Opera"
        { platformSystem := "Linux", launch := .ok (), navigate := .ok ()
        , navTiming := .ok none, resources := .ok [] }).result
      = MultiBase.errResult "Unsupported browser selected." ∧
    (MultiBase.get_website_speed "https://example.com" "Safari"
        { platformSystem := "Linux", launch := .ok (), navigate := .ok ()
        , navTiming := .ok none, resources := .ok [] }).launched = false :=
  ⟨((C5_unsupported_no_launch.1 "https://example.com" "Opera"
      { launch := .ok (), navigate := .ok ()
      , timing := .error "never reached", resources := .ok [] }
      (by decide) (by decide) (by decide)).1),
   ((C5_unsupported_no_launch.2.1 "https://example.com" "Opera"
      { platformSystem := "Linux", launch := .ok (), navigate := .ok ()
      , navTiming := .ok none, resources := .ok [] }
      (by decide) (by decide) (by decide) (by decide)).1),
   ((C5_unsupported_no_launch.2.2 "https://example.com"
      { platformSystem := "Linux", launch := .ok (), navigate := .ok ()
      , navTiming := .ok none, resources := .ok [] }
      (by decide)).2)⟩

/-- C9: teardown is unconditional — on every exit path of
`get_website_speed` (success, timing unavailable, unsupported input, or
an exception from any external call), `driver.quit()` is invoked exactly
when a driver was launched, and whenever the driver constructor
succeeds for a launchable browser the session is both launched and quit
(in particular on exception paths, via the `finally` clause). -/
theorem C9_session_teardown :
    (∀ (url browser : String) (env : BasePy.BaseEnv),
      (BasePy.get_website_speed url browser env).quitCalled
        = (BasePy.get_website_speed url browser env).launched) ∧
    (∀ (url browser : String) (env : MultiBase.MultiEnv),
      (MultiBase.get_website_speed url browser env).quitCalled
        = (MultiBase.get_website_speed url browser env).launched) ∧
    (∀ (url browser : String) (env : BasePy.BaseEnv),
      (browser = "Chrome" ∨ browser = "Firefox" ∨ browser = "Edge") →
      env.launch = .ok () →
      (BasePy.get_website_speed url browser env).launched = true ∧
      (BasePy.get_website_speed url browser env).quitCalled = true) ∧
    (∀ (url browser : String) (env : MultiBase.MultiEnv),
      ((browser = "Chrome" ∨ browser = "Firefox" ∨ browser = "Edge") ∨
        (browser = "Safari" ∧ env.platformSystem = "Darwin")) →
      env.launch = .ok () →
      (MultiBase.get_website_speed url browser env).launched = true ∧
      (MultiBase.get_website_speed url browser env).quitCalled = true) := by
  refine ⟨fun url browser env => rfl, fun url browser env => rfl, ?_, ?_⟩
  · intro url browser env hb hl
    rcases env with ⟨l, nav, tim, res⟩
    cases hl
    simp only [BasePy.get_website_speed, BasePy.baseTryBody, hb]
    cases nav with
    | error e => simp [hb]
    | ok u2 =>
      cases tim with
      | error e => simp [hb]
      | ok t =>
        by_cases hdc : t.domComplete.getD 0 = 0
        · simp [hb, hdc]
        · cases res with
          | error e => simp [hb, hdc]
          | ok rl => simp [hb, hdc]
  · intro url browser env hb hl
    rcases env with ⟨ps, l, nav, tim, res⟩
    cases hl
    rcases hb with hb | ⟨hs, hd⟩
    · simp [MultiBase.get_website_speed, MultiBase.multiTryBody, hb]
    · subst hs
      dsimp only at hd
      simp [MultiBase.get_website_speed, MultiBase.multiTryBody, hd]

/-- Witness for C9: a session whose navigation raises is still quit —
the error is returned as a value and the driver is torn down. -/
theorem C9_session_teardown_witness :
    (BasePy.get_website_speed "https://example.com" "Chrome"
        { launch := .ok (), navigate := .error "navigation timeout"
        , timing := .ok { navigationStart := none, responseStart := none
                        , domComplete := none, domainLookupStart := none
                        , domainLookupEnd := none, connectStart := none
                        , connectEnd := none }
        , resources := .ok [] }).launched = true ∧
    (BasePy.get_website_speed "https://example.com" "Chrome"
        { launch := .ok (), navigate := .error "navigation timeout"
        , timing := .ok { navigationStart := none, responseStart := none
                        , domComplete := none, domainLookupStart := none
                        , domainLookupEnd := none, connectStart := none
                        , connectEnd := none }
        , resources := .ok [] }).quitCalled = true :=
  C9_session_teardown.2.2.1 "https://example.com" "Chrome"
    { launch := .ok (), navigate := .error "navigation timeout"
    , timing := .ok { navigationStart := none, responseStart := none
                    , domComplete := none, domainLookupStart := none
                    , domainLookupEnd := none, connectStart := none
                    , connectEnd := none }
    , resources := .ok [] }
    (Or.inl rfl) rfl

/-- C10: `collect_internal_links` resolves every anchor href against the
seed's origin `scheme://netloc` (empty path), not against the full seed
URL: joining a plain relative href `r` onto the origin yields path
`/r` regardless of the seed's own path, and concretely the seed
`https://h/dir/page` with anchor `a.html` collects `https://h/a.html`,
not `https://h/dir/a.html`. -/
theorem C10_resolve_against_origin :
    (∀ (seed : MultiBase.Url) (r : String),
      MultiBase.urljoin ⟨seed.scheme, seed.netloc, ""⟩ (MultiBase.Href.relative r)
        = ⟨seed.scheme, seed.netloc, "/" ++ r⟩) ∧
    MultiBase.collect_internal_links ⟨"https", "h", "/dir/page"⟩
        (.ok ⟨200, [MultiBase.Href.relative "a.html"]⟩) 10
      = [⟨"https", "h", "/a.html"⟩] ∧
    (⟨"https", "h", "/a.html"⟩ : MultiBase.Url) ≠ ⟨"https", "h", "/dir/a.html"⟩ := by
  refine ⟨?_, by rfl, by simp⟩
  intro seed r
  have hd : MultiBase.dropLastSegment "" = "/" := rfl
  simp [MultiBase.urljoin, hd]

/-- C8 as stated is false in two parts, at the same concrete resource
entry `name = "https://x.test/a/style.css?v=2"`, `initiatorType = "css"`,
`duration = 120`, no transfer size: `base.py` populates
`"Size (KB)"` as `resource.get('transferSize', 0) / 1024 = 0` (absent
transfer size is reported as the number zero, not left unknown), and
`multi-base.py` derives the display name without stripping the query
string. -/
theorem C8_counterexample :
    ((⟨some "https://x.test/a/style.css?v=2", some "css", some 120, none⟩ :
        ResourceEntry).transferSize = none) ∧
    (BasePy.mkBaseRow
        ⟨some "https://x.test/a/style.css?v=2", some "css", some 120, none⟩).sizeKb = 0 ∧
    (MultiBase.mkMultiRow
        ⟨some "https://x.test/a/style.css?v=2", some "css", some 120, none⟩).name
      = "style.css?v=2" ∧
    "style.css?v=2" ≠ "style.css" := by
  refine ⟨rfl, by simp [BasePy.mkBaseRow], rfl, by decide⟩

/-- C8 amended: for every resource entry, `base.py` derives the display
name as the URL's basename with the query string stripped while
`multi-base.py` keeps the query string (basename only, falling back to
the full name when the basename is empty); both derive the type from
`initiatorType` with `"unknown"` as fallback; `base.py` always populates
the size field — `transferSize / 1024` when reported and `0` when absent
(zero, not unknown) — and `multi-base.py` records no size field at all. -/
theorem C8_resource_mapping :
    (∀ e : ResourceEntry, e.initiatorType = none →
      (BasePy.mkBaseRow e).rtype = "unknown" ∧
      (MultiBase.mkMultiRow e).rtype = "unknown") ∧
    (∀ (e : ResourceEntry) (ty : String), e.initiatorType = some ty →
      (BasePy.mkBaseRow e).rtype = ty ∧ (MultiBase.mkMultiRow e).rtype = ty) ∧
    (∀ (e : ResourceEntry) (n : Int), e.transferSize = some n →
      (BasePy.mkBaseRow e).sizeKb = (n : Rat) / 1024) ∧
    (∀ e : ResourceEntry, e.transferSize = none →
      (BasePy.mkBaseRow e).sizeKb = 0) ∧
    ((BasePy.mkBaseRow
        ⟨some "https://x.test/a/style.css?v=2", some "css", some 120, some 2048⟩).name
      = "style.css") ∧
    ((BasePy.mkBaseRow
        ⟨some "https://x.test/a/style.css?v=2", some "css", some 120, some 2048⟩).durationMs
      = 120) ∧
    ((BasePy.mkBaseRow
        ⟨some "https://x.test/a/style.css?v=2", some "css", some 120, some 2048⟩).sizeKb
      = 2) ∧
    ((MultiBase.mkMultiRow
        ⟨some "https://x.test/a/style.css?v=2", some "css", some 120, some 2048⟩).name
      = "style.css?v=2") := by
  refine ⟨?_, ?_, ?_, ?_, rfl, rfl, by simp [BasePy.mkBaseRow]; norm_num, rfl⟩
  · intro e h
    exact ⟨by simp [BasePy.mkBaseRow, h], by simp [MultiBase.mkMultiRow, h]⟩
  · intro e ty h
    exact ⟨by simp [BasePy.mkBaseRow, h], by simp [MultiBase.mkMultiRow, h]⟩
  · intro e n h
    simp [BasePy.mkBaseRow, h]
  · intro e h
    simp [BasePy.mkBaseRow, h]

/-- Witness for C8 (amended): the fallback and size branches evaluated
at concrete entries. -/
theorem C8_resource_mapping_witness :
    (BasePy.mkBaseRow ⟨some "app.js", none, some 10, some 1024⟩).rtype = "unknown" ∧
    (MultiBase.mkMultiRow ⟨some "app.js", none, some 10, some 1024⟩).rtype = "unknown" ∧
    (BasePy.mkBaseRow ⟨some "app.js", none, some 10, some 1024⟩).sizeKb = (1024 : Rat) / 1024 ∧
    (BasePy.mkBaseRow ⟨some "app.js", none, some 10, none⟩).sizeKb = 0 :=
  ⟨(C8_resource_mapping.1 ⟨some "app.js", none, some 10, some 1024⟩ rfl).1,
   (C8_resource_mapping.1 ⟨some "app.js", none, some 10, some 1024⟩ rfl).2,
   C8_resource_mapping.2.2.1 ⟨some "app.js", none, some 10, some 1024⟩ 1024 rfl,
   C8_resource_mapping.2.2.2.1 ⟨some "app.js", none, some 10, none⟩ rfl⟩

end WebSpeed
